/-
Verification of the spotify-time-capsule playlist creator
(src/spotify-time-capsule-playlist-creator.py) against its
natural-language specification.

The Python source is shallowly embedded: the remote Spotify service is a
pure state (pages of playlists plus counters of mutation calls), pandas
`DataFrame.sample(n)` is modelled as draw-without-replacement driven by an
arbitrary stream of random numbers `rand : Nat → Nat` (raising `ValueError`
when the frame has fewer than `n` rows, modelled as `none`), and Python
exceptions are `Except`/`Option` results.
-/
import Mathlib

set_option linter.unusedVariables false

/-! ## Data model -/

/-- A row of the input CSV: an opaque track `uri` and a `plays` count. -/
structure Track where
  uri : String
  plays : Nat
deriving DecidableEq, Repr

/-- A remote playlist: id (opaque identifier, modelled as `Nat`), name,
visibility, description and its ordered track list. -/
structure Playlist where
  id : Nat
  name : String
  public : Bool
  description : String
  tracks : List String
deriving DecidableEq, Repr

/-- The remote Spotify service as seen by this script: the authenticated
user's playlists as the paginated collection the API serves (a list of
pages), a fresh-id counter, and counters of the two mutation endpoints
(so "performs no remote mutation call" is observable). -/
structure SpotifyState where
  pages : List (List Playlist)
  nextId : Nat
  addCalls : Nat
  replaceCalls : Nat
deriving DecidableEq, Repr

/-- The flattened playlist collection, in enumeration order. -/
def SpotifyState.playlists (st : SpotifyState) : List Playlist :=
  st.pages.flatten

/-! ## Track selector (`filter_tracks_by_play_count`, lines 99–112) -/

/-- `df[df['plays'] >= 10]`. -/
def highStratum (df : List Track) : List Track :=
  df.filter (fun t => decide (10 ≤ t.plays))

/-- `df[(df['plays'] >= 5) & (df['plays'] < 10)]`. -/
def midStratum (df : List Track) : List Track :=
  df.filter (fun t => decide (5 ≤ t.plays) && decide (t.plays < 10))

/-- `df[df['plays'] < 5]`. -/
def lowStratum (df : List Track) : List Track :=
  df.filter (fun t => decide (t.plays < 5))

/-- pandas `DataFrame.sample(n)`: draw `n` rows without replacement.
Each draw removes the chosen row; the choice is driven by the random
stream `rand` (draw number `k` picks index `rand k % remaining`).
`none` models the `ValueError` pandas raises when fewer than `n` rows
are available. -/
def sampleWR {α : Type} (rand : Nat → Nat) : Nat → List α → Nat → Option (List α)
  | _, _, 0 => some []
  | k, l, n+1 =>
    if h : l.length = 0 then none
    else
      let i := rand k % l.length
      match sampleWR rand (k+1) (l.eraseIdx i) n with
      | none => none
      | some r => some (l.get ⟨i, Nat.mod_lt _ (Nat.pos_of_ne_zero h)⟩ :: r)

/-- Lines 99–112: select 10 random tracks from each play-count stratum
and return the concatenation of their URIs (high, then mid, then low).
The single random stream is threaded through the three `.sample` calls. -/
def filter_tracks_by_play_count (rand : Nat → Nat) (df : List Track) :
    Option (List String) :=
  match sampleWR rand 0 (highStratum df) 10 with
  | none => none
  | some h =>
    match sampleWR rand 10 (midStratum df) 10 with
    | none => none
    | some m =>
      match sampleWR rand 20 (lowStratum df) 10 with
      | none => none
      | some lo =>
        some (h.map Track.uri ++ m.map Track.uri ++ lo.map Track.uri)

/-! ## Sampling lemmas -/

/-- Removing the chosen element and putting it back in front is a
permutation of the original list. -/
theorem cons_eraseIdx_perm {α : Type} (l : List α) (i : Nat) (h : i < l.length) :
    List.Perm l (l.get ⟨i, h⟩ :: l.eraseIdx i) := by
  conv_lhs => rw [← List.take_append_drop i l, ← List.getElem_cons_drop l i h]
  rw [List.eraseIdx_eq_take_drop_succ]
  exact List.perm_middle

/-- `sample` fails exactly as pandas does: fewer rows than requested. -/
theorem sampleWR_none {α : Type} (rand : Nat → Nat) :
    ∀ (n k : Nat) (l : List α), l.length < n → sampleWR rand k l n = none := by
  intro n
  induction n with
  | zero => intro k l h; omega
  | succ n ih =>
    intro k l h
    unfold sampleWR
    by_cases hl : l.length = 0
    · simp [hl]
    · have hrec : (l.eraseIdx (rand k % l.length)).length < n := by
        have hi : rand k % l.length < l.length :=
          Nat.mod_lt _ (Nat.pos_of_ne_zero hl)
        have := List.length_eraseIdx_add_one (l := l) (i := rand k % l.length) hi
        omega
      simp only [hl, dite_false]
      rw [ih _ _ hrec]

/-- A successful `sample` draws exactly `n` rows, without replacement,
all from the given rows: the result is a sub-permutation of the input. -/
theorem sampleWR_subperm {α : Type} (rand : Nat → Nat) :
    ∀ (n k : Nat) (l : List α), n ≤ l.length →
      ∃ out, sampleWR rand k l n = some out ∧ out.length = n ∧ List.Subperm out l := by
  intro n
  induction n with
  | zero =>
    intro k l h
    exact ⟨[], rfl, rfl, List.nil_subperm⟩
  | succ n ih =>
    intro k l h
    have hl : l.length ≠ 0 := by omega
    have hi : rand k % l.length < l.length := Nat.mod_lt _ (Nat.pos_of_ne_zero hl)
    have hrec : n ≤ (l.eraseIdx (rand k % l.length)).length := by
      have := List.length_eraseIdx_add_one (l := l) (i := rand k % l.length) hi
      omega
    obtain ⟨out, hout, hlen, hsub⟩ := ih (k+1) (l.eraseIdx (rand k % l.length)) hrec
    refine ⟨l.get ⟨rand k % l.length, hi⟩ :: out, ?_, by simp [hlen], ?_⟩
    · unfold sampleWR
      simp only [hl, dite_false]
      rw [hout]
    · have h1 : List.Subperm (l.get ⟨rand k % l.length, hi⟩ :: out)
          (l.get ⟨rand k % l.length, hi⟩ :: l.eraseIdx (rand k % l.length)) :=
        (List.subperm_cons _).mpr hsub
      exact h1.trans (cons_eraseIdx_perm l _ hi).symm.subperm

/-! ## Playlist upserter (lines 61–95) -/

/-- `sp.user_playlist_create(user, name, public, description)`: the service
assigns a fresh id, appends the new (empty) playlist to the collection
(as a page of its own) and returns it. -/
def user_playlist_create (st : SpotifyState) (name : String) (public : Bool)
    (description : String) : SpotifyState × Playlist :=
  let p : Playlist := ⟨st.nextId, name, public, description, []⟩
  ({ st with pages := st.pages ++ [[p]], nextId := st.nextId + 1 }, p)

/-- Lines 61–66: `create_playlist(sp, name, description="", public=False)`
returns the new playlist's id. -/
def create_playlist (st : SpotifyState) (name : String) (description : String)
    (public : Bool) : SpotifyState × Nat :=
  let (st1, p) := user_playlist_create st name public description
  (st1, p.id)

/-- `sp.playlist_add_items(playlist_id, track_uris)`: one remote mutation
call; appends the uris to the playlist with that id. -/
def playlist_add_items (st : SpotifyState) (pid : Nat) (uris : List String) :
    SpotifyState :=
  { st with
    pages := st.pages.map (List.map (fun p =>
      if p.id = pid then { p with tracks := p.tracks ++ uris } else p)),
    addCalls := st.addCalls + 1 }

/-- `sp.playlist_replace_items(playlist_id, track_uris)`: one remote
mutation call; overwrites the playlist's track list. -/
def playlist_replace_items (st : SpotifyState) (pid : Nat) (uris : List String) :
    SpotifyState :=
  { st with
    pages := st.pages.map (List.map (fun p =>
      if p.id = pid then { p with tracks := uris } else p)),
    replaceCalls := st.replaceCalls + 1 }

/-- Lines 69–75: `add_tracks` returns early (no remote call) when the uri
list is empty. -/
def add_tracks (st : SpotifyState) (pid : Nat) (uris : List String) :
    SpotifyState :=
  if uris = [] then st else playlist_add_items st pid uris

/-- Lines 93–95: `replace_tracks` — no empty-list guard; it always issues
the remote replace call. -/
def replace_tracks (st : SpotifyState) (pid : Nat) (uris : List String) :
    SpotifyState :=
  playlist_replace_items st pid uris

/-- Lines 79–89: `playlist_exists` walks the paginated collection
(`while playlists: … if playlists['next']: playlists = sp.next(…)`),
returning the id of the first playlist on the first page that contains a
playlist with exactly the given name. -/
def playlist_exists : List (List Playlist) → String → Option Nat
  | [], _ => none
  | page :: rest, name =>
    match page.find? (fun p => p.name == name) with
    | some p => some p.id
    | none => playlist_exists rest name

/-! ## Credential resolver (`get_spotify_client`, lines 10–58) -/

/-- The environment variables the script reads (`os.getenv` gives `none`
when unset). -/
structure Env where
  accessToken : Option String
  clientId : Option String
  clientSecret : Option String
  refreshToken : Option String
deriving DecidableEq, Repr

/-- The contents of `.spotify_tokens.json` when the file exists. -/
structure TokenData where
  client_id : String
  client_secret : String
  redirect_uri : String
  refresh_token : String
deriving DecidableEq, Repr

/-- Python truthiness of an optional string (`os.getenv` result): unset
and empty are falsy. -/
def truthy : Option String → Bool
  | none => false
  | some s => !(s == "")

/-- How the script can fail while building a client: `nameError` models
the `NameError` from the undefined `redirect_uri` on line 30;
`fileNotFound` the `FileNotFoundError` raised on lines 41–43
(the spec's `CredentialUnavailable`). -/
inductive ClientErr
  | nameError
  | fileNotFound
deriving DecidableEq, Repr

/-- An authenticated client: either built directly from an access token or
from a refreshed token. -/
inductive Client
  | direct (token : String)
  | refreshed (refreshToken : String)
deriving DecidableEq, Repr

/-- Lines 10–58: the three-strategy credential resolver. Strategy 2's
condition `client_id and client_secret and refresh_token and redirect_uri`
short-circuits: when the first three are truthy it evaluates the undefined
name `redirect_uri` and raises `NameError`; when any of them is falsy it
falls through to the token-file strategy. `tokenFile = none` models a
missing `.spotify_tokens.json`. No remote call is involved at any point. -/
def get_spotify_client (env : Env) (tokenFile : Option TokenData) :
    Except ClientErr Client :=
  if truthy env.accessToken then
    .ok (.direct (env.accessToken.getD ""))
  else if truthy env.clientId && truthy env.clientSecret && truthy env.refreshToken then
    .error .nameError
  else
    match tokenFile with
    | none => .error .fileNotFound
    | some d => .ok (.refreshed d.refresh_token)

/-! ## `main` (lines 133–153) -/

/-- How a run can abort: a credential failure or the `ValueError` from a
stratum with fewer than 10 rows (the spec's `InsufficientData`). -/
inductive RunErr
  | cred (e : ClientErr)
  | insufficientData
deriving DecidableEq, Repr

def timeCapsuleName : String := "My time capsule"

def timeCapsuleDescription : String :=
  "Abbie's time capsule playlist that automatically refreshes with a random selection of her old tracks every day."

/-- Lines 133–153 (`main`; Lean reserves that name for the entry point),
as a function of the environment, the token file, the
remote state, the random stream and the CSV rows. Returns the remote
state after the run (mutations made before an exception persist) together
with the outcome (`ok pid` on success). Note the source's order: the
playlist is looked up and, when absent, created *before* the CSV is read
and sampled. -/
def main_run (env : Env) (tokenFile : Option TokenData) (st : SpotifyState)
    (rand : Nat → Nat) (df : List Track) : SpotifyState × Except RunErr Nat :=
  match get_spotify_client env tokenFile with
  | .error e => (st, .error (.cred e))
  | .ok _ =>
    let (st1, pid) :=
      match playlist_exists st.pages timeCapsuleName with
      | some pid => (st, pid)
      | none => create_playlist st timeCapsuleName timeCapsuleDescription false
    match filter_tracks_by_play_count rand df with
    | none => (st1, .error .insufficientData)
    | some uris => (replace_tracks st1 pid uris, .ok pid)

/-! ## Selector structure lemmas (shared) -/

/-- When every stratum has at least 10 rows, the selector succeeds and its
output is the concatenation of the uri-images of three 10-row
sub-permutations, one of each stratum. -/
theorem filter_tracks_some (rand : Nat → Nat) (df : List Track)
    (h1 : 10 ≤ (highStratum df).length)
    (h2 : 10 ≤ (midStratum df).length)
    (h3 : 10 ≤ (lowStratum df).length) :
    ∃ h m lo : List Track,
      filter_tracks_by_play_count rand df =
        some (h.map Track.uri ++ m.map Track.uri ++ lo.map Track.uri) ∧
      h.length = 10 ∧ m.length = 10 ∧ lo.length = 10 ∧
      List.Subperm h (highStratum df) ∧
      List.Subperm m (midStratum df) ∧
      List.Subperm lo (lowStratum df) := by
  obtain ⟨h, hh, hhl, hhs⟩ := sampleWR_subperm rand 10 0 (highStratum df) h1
  obtain ⟨m, hm, hml, hms⟩ := sampleWR_subperm rand 10 10 (midStratum df) h2
  obtain ⟨lo, hlo, hlol, hlos⟩ := sampleWR_subperm rand 10 20 (lowStratum df) h3
  refine ⟨h, m, lo, ?_, hhl, hml, hlol, hhs, hms, hlos⟩
  unfold filter_tracks_by_play_count
  rw [hh, hm, hlo]

/-- The uri image of a sub-permutation is contained in the uri image of the
stratum. -/
theorem map_uri_subset {h s : List Track} (hsub : List.Subperm h s) :
    ∀ u ∈ h.map Track.uri, u ∈ s.map Track.uri := by
  intro u hu
  rw [List.mem_map] at hu ⊢
  obtain ⟨t, ht, rfl⟩ := hu
  exact ⟨t, hsub.subset ht, rfl⟩

/-! ## Concrete test fixtures -/

/-- A 30-row dataset: 10 rows per stratum. -/
def sampleDf : List Track :=
  ((List.range 10).map (fun i => ⟨"h" ++ toString i, 12⟩)) ++
  ((List.range 10).map (fun i => ⟨"m" ++ toString i, 7⟩)) ++
  ((List.range 10).map (fun i => ⟨"l" ++ toString i, 2⟩))

/-- A constant random stream. -/
def rand0 : Nat → Nat := fun _ => 0

def examplePlaylist : Playlist :=
  ⟨1, "My time capsule", false, "old", ["spotify:track:a", "spotify:track:b"]⟩

/-- A remote state holding one pre-existing "My time capsule" playlist. -/
def exampleState : SpotifyState := ⟨[[examplePlaylist]], 2, 0, 0⟩

/-- A remote state with no playlists at all. -/
def emptyState : SpotifyState := ⟨[], 0, 0, 0⟩

/-- Environment with only a direct access token. -/
def envToken : Env := ⟨some "tok", none, none, none⟩

/-- Environment with the three refresh variables but no direct token. -/
def envStrategy2 : Env := ⟨none, some "id", some "secret", some "refresh"⟩

/-- Environment with nothing set. -/
def envEmpty : Env := ⟨none, none, none, none⟩

def exampleTokenFile : TokenData := ⟨"id", "secret", "http://localhost", "refresh"⟩

/-! ## Claims about the track selector -/

/-- C1: for every dataset whose three strata (plays ≥ 10, 5 ≤ plays < 10,
plays < 5) each contain at least 10 rows, and every random stream, the
selector returns exactly 30 URIs: exactly 10 per stratum, each stratum's
rows sampled without replacement (a sub-permutation of the stratum, hence
no duplicate rows) and drawn only from that stratum's rows. -/
theorem selector_stratified_30 (rand : Nat → Nat) (df : List Track)
    (h1 : 10 ≤ (highStratum df).length)
    (h2 : 10 ≤ (midStratum df).length)
    (h3 : 10 ≤ (lowStratum df).length) :
    ∃ h m lo : List Track,
      filter_tracks_by_play_count rand df =
        some (h.map Track.uri ++ m.map Track.uri ++ lo.map Track.uri) ∧
      (h.map Track.uri ++ m.map Track.uri ++ lo.map Track.uri).length = 30 ∧
      h.length = 10 ∧ m.length = 10 ∧ lo.length = 10 ∧
      List.Subperm h (highStratum df) ∧
      List.Subperm m (midStratum df) ∧
      List.Subperm lo (lowStratum df) := by
  obtain ⟨h, m, lo, he, hl, ml, ll, hs, ms, ls⟩ := filter_tracks_some rand df h1 h2 h3
  exact ⟨h, m, lo, he, by simp [hl, ml, ll], hl, ml, ll, hs, ms, ls⟩

/-- C1 witness: the 10/10/10 dataset `sampleDf` satisfies the stratum
preconditions and the theorem applies to it. -/
theorem selector_stratified_30_witness :
    10 ≤ (highStratum sampleDf).length ∧
    10 ≤ (midStratum sampleDf).length ∧
    10 ≤ (lowStratum sampleDf).length ∧
    (∃ h m lo : List Track,
      filter_tracks_by_play_count rand0 sampleDf =
        some (h.map Track.uri ++ m.map Track.uri ++ lo.map Track.uri) ∧
      (h.map Track.uri ++ m.map Track.uri ++ lo.map Track.uri).length = 30 ∧
      h.length = 10 ∧ m.length = 10 ∧ lo.length = 10 ∧
      List.Subperm h (highStratum sampleDf) ∧
      List.Subperm m (midStratum sampleDf) ∧
      List.Subperm lo (lowStratum sampleDf)) :=
  ⟨by decide, by decide, by decide,
    selector_stratified_30 rand0 sampleDf (by decide) (by decide) (by decide)⟩

/-- C2: for every dataset in which some stratum has fewer than 10 rows, and
every random stream, the selector fails: `none` here models the raised
`InsufficientData` failure (pandas' `ValueError`), not a normal return. -/
theorem selector_insufficient (rand : Nat → Nat) (df : List Track)
    (hins : (highStratum df).length < 10 ∨ (midStratum df).length < 10 ∨
            (lowStratum df).length < 10) :
    filter_tracks_by_play_count rand df = none := by
  unfold filter_tracks_by_play_count
  rcases hins with h | h | h
  · rw [sampleWR_none rand 10 0 _ h]
  · cases e : sampleWR rand 0 (highStratum df) 10 with
    | none => rfl
    | some hh => rw [sampleWR_none rand 10 10 _ h]
  · cases e1 : sampleWR rand 0 (highStratum df) 10 with
    | none => rfl
    | some hh =>
      cases e2 : sampleWR rand 10 (midStratum df) 10 with
      | none => rfl
      | some mm => rw [sampleWR_none rand 10 20 _ h]

/-- C2 witness: the empty dataset has an empty high stratum, and the
selector fails on it. -/
theorem selector_insufficient_witness :
    ((highStratum []).length < 10 ∨ (midStratum []).length < 10 ∨
     (lowStratum []).length < 10) ∧
    filter_tracks_by_play_count rand0 [] = none :=
  ⟨by decide, selector_insufficient rand0 [] (by decide)⟩

/-- C7: for every qualifying dataset the selector's output is the
concatenation, in stratum order (high, then mid, then low), of three
10-uri blocks, each drawn entirely from its own stratum — no shuffling
across strata. -/
theorem selector_stratum_order (rand : Nat → Nat) (df : List Track)
    (h1 : 10 ≤ (highStratum df).length)
    (h2 : 10 ≤ (midStratum df).length)
    (h3 : 10 ≤ (lowStratum df).length) :
    ∃ h m lo : List String,
      filter_tracks_by_play_count rand df = some (h ++ m ++ lo) ∧
      h.length = 10 ∧ m.length = 10 ∧ lo.length = 10 ∧
      (∀ u ∈ h, u ∈ (highStratum df).map Track.uri) ∧
      (∀ u ∈ m, u ∈ (midStratum df).map Track.uri) ∧
      (∀ u ∈ lo, u ∈ (lowStratum df).map Track.uri) := by
  obtain ⟨h, m, lo, he, hl, ml, ll, hs, ms, ls⟩ := filter_tracks_some rand df h1 h2 h3
  exact ⟨h.map Track.uri, m.map Track.uri, lo.map Track.uri, he,
    by simp [hl], by simp [ml], by simp [ll],
    map_uri_subset hs, map_uri_subset ms, map_uri_subset ls⟩

/-- C7 witness: the theorem applied to the 10/10/10 dataset `sampleDf`. -/
theorem selector_stratum_order_witness :
    10 ≤ (highStratum sampleDf).length ∧
    10 ≤ (midStratum sampleDf).length ∧
    10 ≤ (lowStratum sampleDf).length ∧
    (∃ h m lo : List String,
      filter_tracks_by_play_count rand0 sampleDf = some (h ++ m ++ lo) ∧
      h.length = 10 ∧ m.length = 10 ∧ lo.length = 10 ∧
      (∀ u ∈ h, u ∈ (highStratum sampleDf).map Track.uri) ∧
      (∀ u ∈ m, u ∈ (midStratum sampleDf).map Track.uri) ∧
      (∀ u ∈ lo, u ∈ (lowStratum sampleDf).map Track.uri)) :=
  ⟨by decide, by decide, by decide,
    selector_stratum_order rand0 sampleDf (by decide) (by decide) (by decide)⟩

/-! ## Claims about replace/add (frame effects) -/

/-- C4 counterexample: calling `replace_tracks` with the empty uri list on a
concrete state DOES perform a remote mutation call (the replace-call
counter increases) and the playlist is changed (its tracks are cleared) —
the claimed empty-skip guard is absent from `replace_tracks`. -/
theorem replace_empty_still_calls :
    (replace_tracks exampleState 1 []).replaceCalls = exampleState.replaceCalls + 1 ∧
    (replace_tracks exampleState 1 []).pages ≠ exampleState.pages := by decide

/-- C4 amended: `replace_tracks` with an empty sequence still performs
exactly one remote replace call and overwrites the target playlist's
track list to empty (the empty-skip guard lives on `add_tracks`, not on
`replace_tracks`). -/
theorem replace_tracks_empty_amended (st : SpotifyState) (pid : Nat) :
    (replace_tracks st pid []).replaceCalls = st.replaceCalls + 1 ∧
    ∀ page ∈ (replace_tracks st pid []).pages, ∀ p ∈ page,
      p.id = pid → p.tracks = [] := by
  refine ⟨rfl, ?_⟩
  intro page hpage p hp hid
  simp only [replace_tracks, playlist_replace_items, List.mem_map] at hpage
  obtain ⟨page0, hp0, rfl⟩ := hpage
  rw [List.mem_map] at hp
  obtain ⟨q, hq, rfl⟩ := hp
  by_cases h : q.id = pid
  · simp [h]
  · simp only [if_neg h] at hid ⊢
    exact absurd hid h

/-- C4 amended witness: the amended theorem at the concrete state holding
playlist 1. -/
theorem replace_tracks_empty_amended_witness :
    (replace_tracks exampleState 1 []).replaceCalls = exampleState.replaceCalls + 1 ∧
    ∀ page ∈ (replace_tracks exampleState 1 []).pages, ∀ p ∈ page,
      p.id = 1 → p.tracks = [] :=
  replace_tracks_empty_amended exampleState 1

/-- C10: calling `add_tracks` with an empty uri list performs no remote
call and leaves the whole remote state (playlists and call counters)
unchanged. -/
theorem add_tracks_empty_noop (st : SpotifyState) (pid : Nat) :
    add_tracks st pid [] = st := rfl

/-! ## Claim about playlist lookup -/

/-- C5: `playlist_exists` traverses every page (following `next` until no
further page is signaled) and returns the id of the first playlist, in
enumeration order over the flattened collection, whose name equals the
given name exactly (case-sensitive `==`); `none` when no playlist
matches. -/
theorem playlist_exists_first_match (pages : List (List Playlist)) (name : String) :
    playlist_exists pages name =
      (pages.flatten.find? (fun p => p.name == name)).map Playlist.id := by
  induction pages with
  | nil => rfl
  | cons page rest ih =>
    simp only [playlist_exists, List.flatten_cons, List.find?_append]
    cases e : page.find? (fun p => p.name == name) with
    | none => simpa using ih
    | some p => simp

/-! ## Claims about the credential resolver -/

/-- C6 (documents the code bug): with no direct token and the client id,
client secret and refresh token all present, line 30 evaluates the
undefined name `redirect_uri` and the resolver crashes with `NameError`
instead of refreshing and returning an authenticated client — even when
the fallback token file exists (it is never reached). -/
theorem env_refresh_crashes :
    get_spotify_client envStrategy2 (some exampleTokenFile) = .error .nameError := rfl

/-- C8: when the direct token is absent, the env credentials are not all
present (so strategy 2 short-circuits without the `NameError`), and the
token file is missing, the resolver fails with `FileNotFoundError` — the
spec's `CredentialUnavailable` — and a whole run aborts with the remote
state untouched: no remote call of any kind is performed. -/
theorem credential_unavailable_aborts (env : Env) (st : SpotifyState)
    (rand : Nat → Nat) (df : List Track)
    (h1 : truthy env.accessToken = false)
    (h2 : (truthy env.clientId && truthy env.clientSecret && truthy env.refreshToken)
            = false) :
    get_spotify_client env none = .error .fileNotFound ∧
    main_run env none st rand df = (st, .error (.cred .fileNotFound)) := by
  have hg : get_spotify_client env none = .error .fileNotFound := by
    simp [get_spotify_client, h1, h2]
  refine ⟨hg, ?_⟩
  unfold main_run
  rw [hg]

/-- C8 witness: the empty environment with no token file at the concrete
state `exampleState`. -/
theorem credential_unavailable_aborts_witness :
    truthy envEmpty.accessToken = false ∧
    (truthy envEmpty.clientId && truthy envEmpty.clientSecret &&
      truthy envEmpty.refreshToken) = false ∧
    (get_spotify_client envEmpty none = .error .fileNotFound ∧
     main_run envEmpty none exampleState rand0 [] =
       (exampleState, .error (.cred .fileNotFound))) :=
  ⟨by decide, by decide,
    credential_unavailable_aborts envEmpty exampleState rand0 [] (by decide) (by decide)⟩

/-! ## Claims about `main` -/

/-- C3 counterexample: on a state with no pre-existing playlist and a
dataset triggering InsufficientData, the run aborts with the error but the
remote playlist collection HAS changed — a playlist was created (the
source creates the playlist before reading and sampling the CSV). -/
theorem insufficient_data_creates_playlist :
    (main_run envToken none emptyState rand0 []).2 = .error .insufficientData ∧
    (main_run envToken none emptyState rand0 []).1.playlists ≠ emptyState.playlists := by
  constructor
  · rfl
  · decide

/-- C3 amended: on InsufficientData the run aborts before any track
mutation — no replace or add call is issued; when a playlist with the
target name already exists the remote state is completely unchanged; when
none exists the only mutation is the creation of the new, still-empty
playlist before the failure. -/
theorem insufficient_data_aborts (env : Env) (tokenFile : Option TokenData)
    (st : SpotifyState) (rand : Nat → Nat) (df : List Track) (c : Client)
    (hc : get_spotify_client env tokenFile = .ok c)
    (hd : filter_tracks_by_play_count rand df = none) :
    (main_run env tokenFile st rand df).2 = .error .insufficientData ∧
    (main_run env tokenFile st rand df).1.replaceCalls = st.replaceCalls ∧
    (main_run env tokenFile st rand df).1.addCalls = st.addCalls ∧
    ((playlist_exists st.pages timeCapsuleName).isSome →
      (main_run env tokenFile st rand df).1 = st) ∧
    (playlist_exists st.pages timeCapsuleName = none →
      (main_run env tokenFile st rand df).1.pages =
        st.pages ++ [[⟨st.nextId, timeCapsuleName, false, timeCapsuleDescription, []⟩]]) := by
  unfold main_run
  rw [hc, hd]
  cases e : playlist_exists st.pages timeCapsuleName with
  | some pid => simp
  | none => simp [create_playlist, user_playlist_create]

/-- C3 amended witness: a state holding a pre-existing "My time capsule"
playlist plus the empty (insufficient) dataset: the run aborts and the
state is untouched. -/
theorem insufficient_data_aborts_witness :
    get_spotify_client envToken none = .ok (.direct "tok") ∧
    filter_tracks_by_play_count rand0 [] = none ∧
    ((main_run envToken none exampleState rand0 []).2 = .error .insufficientData ∧
     (main_run envToken none exampleState rand0 []).1.replaceCalls = exampleState.replaceCalls ∧
     (main_run envToken none exampleState rand0 []).1.addCalls = exampleState.addCalls ∧
     ((playlist_exists exampleState.pages timeCapsuleName).isSome →
       (main_run envToken none exampleState rand0 []).1 = exampleState) ∧
     (playlist_exists exampleState.pages timeCapsuleName = none →
       (main_run envToken none exampleState rand0 []).1.pages =
         exampleState.pages ++
           [[⟨exampleState.nextId, timeCapsuleName, false, timeCapsuleDescription, []⟩]])) :=
  ⟨rfl, rfl,
    insufficient_data_aborts envToken none exampleState rand0 [] (.direct "tok") rfl rfl⟩

/-- Mapping a function that fixes every playlist of every page leaves the
page structure unchanged. -/
theorem map_pages_id (pages : List (List Playlist)) (f : Playlist → Playlist)
    (hf : ∀ p ∈ pages.flatten, f p = p) :
    pages.map (List.map f) = pages := by
  induction pages with
  | nil => rfl
  | cons page rest ih =>
    have h1 : page.map f = page := by
      have h := List.map_congr_left (l := page) (f := f) (g := id)
        (fun p hp => by
          rw [hf p (by rw [List.flatten_cons, List.mem_append]; exact Or.inl hp)]
          rfl)
      simpa using h
    have h2 := ih (fun p hp =>
      hf p (by rw [List.flatten_cons, List.mem_append]; exact Or.inr hp))
    simp [h1, h2]

/-- C9: when credentials resolve, no "My time capsule" playlist exists,
the service's fresh id is indeed fresh, and every stratum has at least 10
rows, the run succeeds: a playlist with exactly that name, private
visibility and the description is created, it is assigned exactly 30
tracks, and every pre-existing playlist is untouched. -/
theorem scenario_A (env : Env) (tokenFile : Option TokenData) (st : SpotifyState)
    (rand : Nat → Nat) (df : List Track) (c : Client)
    (hc : get_spotify_client env tokenFile = .ok c)
    (hfind : playlist_exists st.pages timeCapsuleName = none)
    (hfresh : ∀ p ∈ st.playlists, p.id ≠ st.nextId)
    (h1 : 10 ≤ (highStratum df).length)
    (h2 : 10 ≤ (midStratum df).length)
    (h3 : 10 ≤ (lowStratum df).length) :
    ∃ uris : List String, uris.length = 30 ∧
      (main_run env tokenFile st rand df).2 = .ok st.nextId ∧
      (main_run env tokenFile st rand df).1.playlists =
        st.playlists ++
          [⟨st.nextId, timeCapsuleName, false, timeCapsuleDescription, uris⟩] := by
  obtain ⟨h, m, lo, he, hl, ml, ll, _, _, _⟩ := filter_tracks_some rand df h1 h2 h3
  refine ⟨h.map Track.uri ++ m.map Track.uri ++ lo.map Track.uri,
    by simp [hl, ml, ll], ?_, ?_⟩
  · unfold main_run
    rw [hc, hfind, he]
    rfl
  · unfold main_run
    rw [hc, hfind, he]
    simp only [create_playlist, user_playlist_create, replace_tracks,
      playlist_replace_items, SpotifyState.playlists, List.map_append,
      List.flatten_append]
    rw [map_pages_id st.pages _ (fun p hp => by
      rw [if_neg (hfresh p hp)])]
    simp

/-- C9 witness: starting from the empty remote state with the 10/10/10
dataset, the run creates the private "My time capsule" playlist with 30
tracks. -/
theorem scenario_A_witness :
    get_spotify_client envToken none = .ok (.direct "tok") ∧
    playlist_exists emptyState.pages timeCapsuleName = none ∧
    (∀ p ∈ emptyState.playlists, p.id ≠ emptyState.nextId) ∧
    10 ≤ (highStratum sampleDf).length ∧
    10 ≤ (midStratum sampleDf).length ∧
    10 ≤ (lowStratum sampleDf).length ∧
    (∃ uris : List String, uris.length = 30 ∧
      (main_run envToken none emptyState rand0 sampleDf).2 = .ok emptyState.nextId ∧
      (main_run envToken none emptyState rand0 sampleDf).1.playlists =
        emptyState.playlists ++
          [⟨emptyState.nextId, timeCapsuleName, false, timeCapsuleDescription, uris⟩]) :=
  ⟨rfl, rfl, by decide, by decide, by decide, by decide,
    scenario_A envToken none emptyState rand0 sampleDf (.direct "tok") rfl rfl
      (by decide) (by decide) (by decide) (by decide)⟩
